import Mathlib

/-!
Shallow embedding of the `sgkind-utils` status-code module (`src/status.rs`).

`StatusCode` wraps a 16-bit unsigned integer, modelled as a `Nat`; callers of
`from_u16` are constrained to `n < 65536` where the u16 domain matters.
Byte sequences are modelled as `List Nat` with each byte below 256.
Fallible constructors return `Except InvalidStatusCode StatusCode`.
-/

/-- `StatusCode(u16)` from the source: a newtype over the integer. -/
structure StatusCode where
  val : Nat
  deriving DecidableEq, Repr

/-- `InvalidStatusCode`: a zero-information error marker. -/
structure InvalidStatusCode where
  deriving DecidableEq, Repr

/-- `u8::wrapping_sub` on bytes (values below 256): subtraction modulo 256. -/
def u8_wrapping_sub (a b : Nat) : Nat :=
  (a % 256 + 256 - b % 256) % 256

/-- `StatusCode::from_u16`: accepts exactly the values `≤ 40000`. -/
def StatusCode.from_u16 (src : Nat) : Except InvalidStatusCode StatusCode :=
  if src > 40000 then .error ⟨⟩ else .ok ⟨src⟩

/-- `StatusCode::from_bytes`, faithful to the source: the length-5 check comes
first, and each of the five digit computations reads the byte at index 0
(`src[0].wrapping_sub(b'0')` five times). -/
def StatusCode.from_bytes (src : List Nat) : Except InvalidStatusCode StatusCode :=
  if src.length ≠ 5 then .error ⟨⟩
  else
    let a : Nat := u8_wrapping_sub (src.getD 0 0) 48
    let b : Nat := u8_wrapping_sub (src.getD 0 0) 48
    let c : Nat := u8_wrapping_sub (src.getD 0 0) 48
    let d : Nat := u8_wrapping_sub (src.getD 0 0) 48
    let e : Nat := u8_wrapping_sub (src.getD 0 0) 48
    if a ≥ 4 ∨ b > 9 ∨ c > 9 ∨ d > 9 ∨ e > 9 then .error ⟨⟩
    else .ok ⟨a * 10000 + b * 1000 + c * 100 + d * 10 + e⟩

/-- `StatusCode::from_bytes` with each slice-indexing operation made explicit:
an out-of-bounds read (a Rust abort) is `none`.  Mirrors the source, where the
five reads are all `src[0]` and are guarded by the length check. -/
def StatusCode.from_bytesChecked (src : List Nat) :
    Option (Except InvalidStatusCode StatusCode) :=
  if src.length ≠ 5 then some (.error ⟨⟩)
  else
    match src[0]?, src[0]?, src[0]?, src[0]?, src[0]? with
    | some ra, some rb, some rc, some rd, some re =>
      let a : Nat := u8_wrapping_sub ra 48
      let b : Nat := u8_wrapping_sub rb 48
      let c : Nat := u8_wrapping_sub rc 48
      let d : Nat := u8_wrapping_sub rd 48
      let e : Nat := u8_wrapping_sub re 48
      if a ≥ 4 ∨ b > 9 ∨ c > 9 ∨ d > 9 ∨ e > 9 then some (.error ⟨⟩)
      else some (.ok ⟨a * 10000 + b * 1000 + c * 100 + d * 10 + e⟩)
    | _, _, _, _, _ => none

/-- `FromStr for StatusCode`: delegates to `from_bytes` on the bytes. -/
def StatusCode.from_str (s : List Nat) : Except InvalidStatusCode StatusCode :=
  StatusCode.from_bytes s

/-- `StatusCode::as_u16` (via `u16::from`): the wrapped integer verbatim. -/
def StatusCode.as_u16 (s : StatusCode) : Nat :=
  s.val

/-- The free `canonical_reason` function generated by the `status_codes!`
macro: a match on the numeric value over the fixed table. -/
def canonical_reason (num : Nat) : Option String :=
  if num = 0 then some "Ok"
  else if num = 10001 then some "Client Error"
  else if num = 10100 then some "Register Failed"
  else if num = 10101 then some "Did Not Agree to the Privacy Agreement"
  else if num = 10102 then some "Country or Region not allowed"
  else if num = 10110 then some "Username Failed"
  else if num = 10111 then some "Username Already Exists"
  else if num = 10112 then some "Username Contains Sensitive Word"
  else if num = 10113 then some "Username Contains Special Character"
  else if num = 10120 then some "Password Failed"
  else if num = 10121 then some "Password is To Short"
  else if num = 10122 then some "Password is to WEAK"
  else if num = 10130 then some "Verification Code Failed"
  else if num = 10131 then some "Sms Verification Code Failed"
  else if num = 10132 then some "Email Verification Code Failed"
  else if num = 10133 then some "Voice Verification Code Failed"
  else none

/-- `StatusCode::is_success`: true exactly on the wrapped value 0. -/
def StatusCode.is_success (s : StatusCode) : Bool :=
  s.val == 0

/-- `impl fmt::Display for StatusCode`: renders
`"{numeric value} {canonical phrase or <unknown status code>}"`. -/
def statusDisplay (s : StatusCode) : String :=
  toString (StatusCode.as_u16 s) ++ " " ++
    (canonical_reason (StatusCode.as_u16 s)).getD "<unknown status code>"

/-- `impl PartialEq<u16> for StatusCode`. -/
def StatusCode.eq_u16 (s : StatusCode) (other : Nat) : Bool :=
  StatusCode.as_u16 s == other

/-- `impl PartialEq<StatusCode> for u16`. -/
def u16_eq_StatusCode (n : Nat) (s : StatusCode) : Bool :=
  n == StatusCode.as_u16 s

def StatusCode.OK : StatusCode := ⟨0⟩

def StatusCode.CLIENT_ERROR : StatusCode := ⟨10001⟩

def StatusCode.REGISTER_FAILED : StatusCode := ⟨10100⟩

def StatusCode.NOT_AGREE_PRIVACY : StatusCode := ⟨10101⟩

def StatusCode.COUNTRY_OR_REGION_NOT_ALLOWED : StatusCode := ⟨10102⟩

def StatusCode.USERNAME_FAILED : StatusCode := ⟨10110⟩

def StatusCode.USERNAME_EXISTS : StatusCode := ⟨10111⟩

def StatusCode.USERNAME_CONTAINS_SENSITIVE_WORD : StatusCode := ⟨10112⟩

def StatusCode.USERNAME_CONTAINS_SPECIAL_CHAR : StatusCode := ⟨10113⟩

def StatusCode.PASSWORD_FAILED : StatusCode := ⟨10120⟩

def StatusCode.PASSWORD_TO_SHORT : StatusCode := ⟨10121⟩

def StatusCode.PASSWORD_TO_WEAK : StatusCode := ⟨10122⟩

def StatusCode.VERIFICATION_CODE_FAILED : StatusCode := ⟨10130⟩

def StatusCode.SMS_VERIFICATION_CODE_FAILED : StatusCode := ⟨10131⟩

def StatusCode.EMAIL_VERIFICATION_CODE_FAILED : StatusCode := ⟨10132⟩

def StatusCode.VOICE_VERIFICATION_CODE_FAILED : StatusCode := ⟨10133⟩

/-- `impl Default for StatusCode`: the OK constant. -/
def StatusCode.default : StatusCode := StatusCode.OK

/-- All named constants declared by the `status_codes!` invocation. -/
def namedConstants : List StatusCode :=
  [StatusCode.OK, StatusCode.CLIENT_ERROR, StatusCode.REGISTER_FAILED,
   StatusCode.NOT_AGREE_PRIVACY, StatusCode.COUNTRY_OR_REGION_NOT_ALLOWED,
   StatusCode.USERNAME_FAILED, StatusCode.USERNAME_EXISTS,
   StatusCode.USERNAME_CONTAINS_SENSITIVE_WORD,
   StatusCode.USERNAME_CONTAINS_SPECIAL_CHAR,
   StatusCode.PASSWORD_FAILED, StatusCode.PASSWORD_TO_SHORT,
   StatusCode.PASSWORD_TO_WEAK, StatusCode.VERIFICATION_CODE_FAILED,
   StatusCode.SMS_VERIFICATION_CODE_FAILED,
   StatusCode.EMAIL_VERIFICATION_CODE_FAILED,
   StatusCode.VOICE_VERIFICATION_CODE_FAILED]

/-- The numeric codes appearing in the canonical table. -/
def listedCodes : List Nat :=
  [0, 10001, 10100, 10101, 10102, 10110, 10111, 10112, 10113,
   10120, 10121, 10122, 10130, 10131, 10132, 10133]

/-- Claim C1: the spec requires positional combination of the five digits, so
parsing "01234" (bytes 48,49,50,51,52) should yield 1234; the code reads
`src[0]` for all five digits and returns the status 0 instead. -/
theorem from_bytes_digit_positions_bug :
    StatusCode.from_bytes [48, 49, 50, 51, 52] = Except.ok ⟨0⟩ ∧
    StatusCode.from_str [48, 49, 50, 51, 52] = Except.ok ⟨0⟩ ∧
    StatusCode.as_u16 ⟨0⟩ ≠ 1234 :=
  ⟨rfl, rfl, by decide⟩

/-- Claim C2: the spec requires any 5-byte input containing a non-digit byte to
be rejected; the code accepts "0a000" (bytes 48,97,48,48,48) because only the
byte at index 0 is ever range-checked, even though 97 is not an ASCII digit. -/
theorem from_bytes_nondigit_accepted_bug :
    StatusCode.from_bytes [48, 97, 48, 48, 48] = Except.ok ⟨0⟩ ∧
    ¬(48 ≤ (97 : Nat) ∧ (97 : Nat) ≤ 57) :=
  ⟨rfl, by decide⟩

/-- Claim C3: for every 16-bit integer `n`, `from_u16 n` succeeds exactly when
`n ≤ 40000`, the success wraps `n` itself with `as_u16` projecting it back, and
every `n > 40000` fails with `InvalidStatusCode`. -/
theorem from_u16_correct (n : Nat) (h : n < 65536) :
    (n ≤ 40000 → StatusCode.from_u16 n = Except.ok ⟨n⟩ ∧ StatusCode.as_u16 ⟨n⟩ = n) ∧
    (40000 < n → StatusCode.from_u16 n = Except.error ⟨⟩) := by
  unfold StatusCode.from_u16
  constructor
  · intro h1
    rw [if_neg (by omega)]
    exact ⟨rfl, rfl⟩
  · intro h1
    rw [if_pos (by omega)]

theorem from_u16_correct_witness :
    StatusCode.from_u16 12345 = Except.ok ⟨12345⟩ ∧ StatusCode.as_u16 ⟨12345⟩ = 12345 :=
  (from_u16_correct 12345 (by decide)).1 (by decide)

/-- Claim C6: `is_success` holds exactly on wrapped value 0; `OK` is successful,
`default` is `OK`, and every other named constant is not successful. -/
theorem is_success_iff_zero :
    (∀ sc : StatusCode, StatusCode.is_success sc = true ↔ StatusCode.as_u16 sc = 0) ∧
    StatusCode.is_success StatusCode.OK = true ∧
    StatusCode.default = StatusCode.OK ∧
    (∀ sc : StatusCode, sc ∈ namedConstants → sc ≠ StatusCode.OK →
      StatusCode.is_success sc = false) := by
  refine ⟨?_, rfl, rfl, ?_⟩
  · intro sc
    simp [StatusCode.is_success, StatusCode.as_u16]
  · intro sc hmem hne
    fin_cases hmem
    · exact absurd rfl hne
    all_goals rfl

theorem is_success_iff_zero_witness :
    StatusCode.is_success StatusCode.CLIENT_ERROR = false :=
  is_success_iff_zero.2.2.2 StatusCode.CLIENT_ERROR (by decide) (by decide)

/-- Claim C7: equality with a raw 16-bit integer is symmetric and holds exactly
when the wrapped value equals the integer, and two `StatusCode`s are equal
exactly when their wrapped integers are. -/
theorem eq_u16_symmetric :
    (∀ sc : StatusCode, StatusCode.eq_u16 sc (StatusCode.as_u16 sc) = true ∧
      u16_eq_StatusCode (StatusCode.as_u16 sc) sc = true) ∧
    (∀ (sc : StatusCode) (n : Nat), StatusCode.eq_u16 sc n = u16_eq_StatusCode n sc) ∧
    (∀ (sc : StatusCode) (n : Nat), StatusCode.eq_u16 sc n = true ↔ StatusCode.as_u16 sc = n) ∧
    (∀ a b : StatusCode, a = b ↔ StatusCode.as_u16 a = StatusCode.as_u16 b) := by
  refine ⟨?_, ?_, ?_, ?_⟩
  · intro sc
    exact ⟨by simp [StatusCode.eq_u16], by simp [u16_eq_StatusCode]⟩
  · intro sc n
    by_cases h : StatusCode.as_u16 sc = n
    · simp [StatusCode.eq_u16, u16_eq_StatusCode, h]
    · simp [StatusCode.eq_u16, u16_eq_StatusCode, h, Ne.symm h]
  · intro sc n
    simp [StatusCode.eq_u16]
  · intro a b
    cases a
    cases b
    simp [StatusCode.as_u16]

theorem eq_u16_symmetric_witness :
    StatusCode.eq_u16 StatusCode.OK (StatusCode.as_u16 StatusCode.OK) = true :=
  (eq_u16_symmetric.1 StatusCode.OK).1

/-- Any successful `from_bytes` result wraps `x * 11111` for a digit `x ≤ 3`,
since all five digit computations read the byte at index 0. -/
theorem from_bytes_ok_val (src : List Nat) (sc : StatusCode)
    (h : StatusCode.from_bytes src = Except.ok sc) :
    ∃ x : Nat, x ≤ 3 ∧ StatusCode.as_u16 sc = x * 11111 := by
  by_cases hl : src.length = 5
  · simp only [StatusCode.from_bytes, hl] at h
    simp only [ne_eq, not_true_eq_false, if_false] at h
    split at h
    · exact absurd h (by simp)
    next hguard =>
      injection h with h2
      subst h2
      refine ⟨u8_wrapping_sub (src.getD 0 0) 48, ?_, ?_⟩
      · push_neg at hguard
        omega
      · simp only [StatusCode.as_u16]
        ring
  · simp [StatusCode.from_bytes, hl] at h

/-- Claim C4: every `StatusCode` producible through the public interface
(`from_u16`, `from_bytes`, `from_str`, the named constants, `default`) wraps an
integer `≤ 40000`. -/
theorem status_code_invariant :
    (∀ (n : Nat) (sc : StatusCode), StatusCode.from_u16 n = Except.ok sc →
      StatusCode.as_u16 sc ≤ 40000) ∧
    (∀ (src : List Nat) (sc : StatusCode), StatusCode.from_bytes src = Except.ok sc →
      StatusCode.as_u16 sc ≤ 40000) ∧
    (∀ (s : List Nat) (sc : StatusCode), StatusCode.from_str s = Except.ok sc →
      StatusCode.as_u16 sc ≤ 40000) ∧
    (∀ sc : StatusCode, sc ∈ namedConstants → StatusCode.as_u16 sc ≤ 40000) ∧
    StatusCode.as_u16 StatusCode.default ≤ 40000 := by
  have hbytes : ∀ (src : List Nat) (sc : StatusCode),
      StatusCode.from_bytes src = Except.ok sc → StatusCode.as_u16 sc ≤ 40000 := by
    intro src sc h
    obtain ⟨x, hx, hval⟩ := from_bytes_ok_val src sc h
    omega
  refine ⟨?_, hbytes, ?_, ?_, by decide⟩
  · intro n sc h
    by_cases hc : n > 40000
    · simp [StatusCode.from_u16, hc] at h
    · simp [StatusCode.from_u16, hc] at h
      subst h
      simp only [StatusCode.as_u16]
      omega
  · intro s sc h
    exact hbytes s sc h
  · intro sc hmem
    fin_cases hmem <;> decide

theorem status_code_invariant_witness :
    StatusCode.as_u16 StatusCode.OK ≤ 40000 :=
  status_code_invariant.2.2.2.1 StatusCode.OK (by decide)

/-- Claim C5: `canonical_reason` returns exactly the tabulated phrase for each
of the 16 listed codes and no value for every other valid code. -/
theorem canonical_reason_table :
    (canonical_reason 0 = some "Ok" ∧
     canonical_reason 10001 = some "Client Error" ∧
     canonical_reason 10100 = some "Register Failed" ∧
     canonical_reason 10101 = some "Did Not Agree to the Privacy Agreement" ∧
     canonical_reason 10102 = some "Country or Region not allowed" ∧
     canonical_reason 10110 = some "Username Failed" ∧
     canonical_reason 10111 = some "Username Already Exists" ∧
     canonical_reason 10112 = some "Username Contains Sensitive Word" ∧
     canonical_reason 10113 = some "Username Contains Special Character" ∧
     canonical_reason 10120 = some "Password Failed" ∧
     canonical_reason 10121 = some "Password is To Short" ∧
     canonical_reason 10122 = some "Password is to WEAK" ∧
     canonical_reason 10130 = some "Verification Code Failed" ∧
     canonical_reason 10131 = some "Sms Verification Code Failed" ∧
     canonical_reason 10132 = some "Email Verification Code Failed" ∧
     canonical_reason 10133 = some "Voice Verification Code Failed") ∧
    (∀ n : Nat, n ≤ 40000 → n ∉ listedCodes → canonical_reason n = none) := by
  constructor
  · exact ⟨rfl, rfl, rfl, rfl, rfl, rfl, rfl, rfl, rfl, rfl, rfl, rfl, rfl, rfl, rfl, rfl⟩
  · intro n hle hmem
    simp only [listedCodes, List.mem_cons, List.not_mem_nil, or_false, not_or] at hmem
    obtain ⟨e0, e1, e2, e3, e4, e5, e6, e7, e8, e9, e10, e11, e12, e13, e14, e15⟩ := hmem
    unfold canonical_reason
    rw [if_neg e0, if_neg e1, if_neg e2, if_neg e3, if_neg e4, if_neg e5, if_neg e6,
      if_neg e7, if_neg e8, if_neg e9, if_neg e10, if_neg e11, if_neg e12, if_neg e13,
      if_neg e14, if_neg e15]

theorem canonical_reason_table_witness : canonical_reason 1 = none :=
  canonical_reason_table.2 1 (by decide) (by decide)

/-- Claim C8: the display form is the numeric value, a space, and the canonical
phrase when one exists or "<unknown status code>" otherwise; `OK` renders as
"0 Ok" and the unlisted valid code 1 renders as "1 <unknown status code>". -/
theorem display_format :
    statusDisplay StatusCode.OK = "0 Ok" ∧
    statusDisplay ⟨1⟩ = "1 <unknown status code>" ∧
    (∀ (sc : StatusCode) (r : String),
      canonical_reason (StatusCode.as_u16 sc) = some r →
      statusDisplay sc = toString (StatusCode.as_u16 sc) ++ " " ++ r) ∧
    (∀ sc : StatusCode,
      canonical_reason (StatusCode.as_u16 sc) = none →
      statusDisplay sc = toString (StatusCode.as_u16 sc) ++ " " ++ "<unknown status code>") := by
  refine ⟨rfl, rfl, ?_, ?_⟩
  · intro sc r h
    unfold statusDisplay
    rw [h]
    rfl
  · intro sc h
    unfold statusDisplay
    rw [h]
    rfl

theorem display_format_witness :
    statusDisplay StatusCode.OK = toString (StatusCode.as_u16 StatusCode.OK) ++ " " ++ "Ok" :=
  display_format.2.2.1 StatusCode.OK "Ok" rfl

/-- Claim C9: `from_bytes` is total on arbitrary byte sequences: each indexing
operation succeeds (the length-5 check precedes all indexing, so the checked
model never reaches an out-of-bounds read), and a first byte below the ASCII
code of the character zero is rejected by the digit-range check, because the
wrapping subtraction turns it into a large digit value. -/
theorem from_bytes_total_no_abort :
    (∀ src : List Nat, StatusCode.from_bytesChecked src = some (StatusCode.from_bytes src)) ∧
    (∀ src : List Nat, src.length = 5 → src.getD 0 0 < 48 →
      StatusCode.from_bytes src = Except.error ⟨⟩) := by
  constructor
  · intro src
    by_cases hl : src.length = 5
    · cases src with
      | nil => simp at hl
      | cons hd tl =>
        simp [StatusCode.from_bytesChecked, StatusCode.from_bytes, hl]
        split <;> rfl
    · simp [StatusCode.from_bytesChecked, StatusCode.from_bytes, hl]
  · intro src h5 hb
    obtain ⟨b0, rest, rfl⟩ : ∃ b t, src = b :: t := by
      cases src with
      | nil => simp at h5
      | cons a t => exact ⟨a, t, rfl⟩
    simp only [List.getD_cons_zero] at hb
    have hx : 4 ≤ u8_wrapping_sub b0 48 := by
      unfold u8_wrapping_sub
      omega
    simp [StatusCode.from_bytes, h5, hx]

theorem from_bytes_total_no_abort_witness :
    StatusCode.from_bytes [0, 48, 48, 48, 48] = Except.error ⟨⟩ :=
  from_bytes_total_no_abort.2 [0, 48, 48, 48, 48] (by decide) (by decide)

/-- Claim C10 (implicit): a successful `from_bytes` always wraps one of 0,
11111, 22222, 33333; the result depends only on the length and the first byte,
and `from_str` coincides with `from_bytes`. -/
theorem from_bytes_first_byte_only :
    (∀ (src : List Nat) (sc : StatusCode), StatusCode.from_bytes src = Except.ok sc →
      StatusCode.as_u16 sc = 0 ∨ StatusCode.as_u16 sc = 11111 ∨
      StatusCode.as_u16 sc = 22222 ∨ StatusCode.as_u16 sc = 33333) ∧
    (∀ src srcB : List Nat, src.length = 5 → srcB.length = 5 →
      src.getD 0 0 = srcB.getD 0 0 →
      StatusCode.from_bytes src = StatusCode.from_bytes srcB) ∧
    (∀ s : List Nat, StatusCode.from_str s = StatusCode.from_bytes s) := by
  refine ⟨?_, ?_, fun s => rfl⟩
  · intro src sc h
    obtain ⟨x, hx, hval⟩ := from_bytes_ok_val src sc h
    omega
  · intro src srcB h1 h2 heq
    obtain ⟨a0, ta, rfl⟩ : ∃ b t, src = b :: t := by
      cases src with
      | nil => simp at h1
      | cons a t => exact ⟨a, t, rfl⟩
    obtain ⟨b0, tb, rfl⟩ : ∃ b t, srcB = b :: t := by
      cases srcB with
      | nil => simp at h2
      | cons a t => exact ⟨a, t, rfl⟩
    simp only [List.getD_cons_zero] at heq
    subst heq
    simp [StatusCode.from_bytes, h1, h2]

theorem from_bytes_first_byte_only_witness :
    StatusCode.as_u16 ⟨11111⟩ = 0 ∨ StatusCode.as_u16 ⟨11111⟩ = 11111 ∨
    StatusCode.as_u16 ⟨11111⟩ = 22222 ∨ StatusCode.as_u16 ⟨11111⟩ = 33333 :=
  from_bytes_first_byte_only.1 [49, 49, 49, 49, 49] ⟨11111⟩ rfl
